import Mathlib

/-!
A shallow embedding of the match-summary pipeline of `src/dashboard.py`
(a Dota 2 friends dashboard).

Modelling conventions:
* Python numbers: `int` is `Int`/`Nat`; floats are modelled as exact
  rationals (`ℚ`), so `x / y` is exact rational division and
  `round(x, 1)` is exact round-half-to-even at one decimal.
* A pandas DataFrame of match rows is a list of rows together with a
  flag recording whether the derived `win`/`loss`/`start_time` columns
  have been added.  `pd.DataFrame([])` (the empty JSON response) has no
  columns at all, and pandas raises `KeyError` on access to a missing
  column even when the frame is empty; the flag captures column
  presence.  A raised Python exception is an `Except.error`.
* The remote HTTP API is an explicit environment parameter
  (`NetEnv`) mapping a request to the response it returns; the
  `@st.cache_data` decorator only memoises `fetch_matches` and does not
  change its value, so it is not modelled.
* `df.sort_values(by, ascending=False)` in pandas computes an argsort of
  the values in ascending order and then reverses the index order
  (`pandas.core.sorting.nargsort`); numpy's default sort on small inputs
  is an insertion sort, which is stable in ascending order.  It is
  modelled as a stable ascending insertion sort followed by a reversal,
  so rows tied on the key come out in reversed input order.
-/

namespace Dota2

/-- The fixed epoch constant `STEAM_EPOCH` (dashboard.py line 9). -/
def STEAM_EPOCH : Int := 76561197960265728

/-- Models Python `str.isdigit` on one character: true for the ASCII
decimal digits and also for characters that carry the Unicode digit
property without being decimal digits, such as the superscript digits
U+00B9 ('¹'), U+00B2 ('²'), U+00B3 ('³').  (Python's table has further
such characters; this fragment is what the development exercises.) -/
def pyIsDigit (c : Char) : Bool :=
  c.isDigit || c == '¹' || c == '²' || c == '³'

/-- Models Python `str.isdigit` on a whole string (`c.isdigit()` in
dashboard.py line 24): false on the empty string, otherwise true iff
every character is a digit character. -/
def pyIsDigitStr (s : String) : Bool :=
  !s.data.isEmpty && s.data.all pyIsDigit

/-- Whitespace stripping from both ends of a character list; models
Python `str.strip()` and the whitespace stripping `int()` performs on
string input. -/
def listTrim (l : List Char) : List Char :=
  ((l.dropWhile Char.isWhitespace).reverse.dropWhile Char.isWhitespace).reverse

/-- The numeric value of a list of ASCII decimal digits. -/
def digitsToNat (l : List Char) : Nat :=
  l.foldl (fun a c => 10 * a + (c.toNat - 48)) 0

/-- Core of Python `int()` on an already-stripped character list: an
optional single sign followed by a nonempty run of decimal digits.
(Python additionally accepts underscore separators and non-ASCII Unicode
decimal digits; neither occurs in this development.) -/
def pyIntCore : List Char → Option Int
  | [] => none
  | c :: rest =>
    if c = '-' then
      if !rest.isEmpty && rest.all Char.isDigit then
        some (-(digitsToNat rest : Int))
      else none
    else if c = '+' then
      if !rest.isEmpty && rest.all Char.isDigit then
        some ((digitsToNat rest : Int))
      else none
    else
      if (c :: rest).all Char.isDigit then
        some ((digitsToNat (c :: rest) : Int))
      else none

/-- Models Python `int(s)` for a string argument: strip surrounding
whitespace, then parse an optionally signed decimal literal; `none` is a
raised `ValueError`. -/
def pyInt (s : String) : Option Int :=
  pyIntCore (listTrim s.data)

/-- `steam64_to_account_id` (dashboard.py lines 15–19): `int(steam64)`
minus `STEAM_EPOCH`, with a `ValueError` recovered as `None`. -/
def steam64_to_account_id (steam64 : String) : Option Int :=
  (pyInt steam64).map (fun n => n - STEAM_EPOCH)

/-- The character substitution performed by
`raw_text.replace("\n", ",")` (dashboard.py line 23). -/
def nlToComma (c : Char) : Char :=
  if c = '\n' then ',' else c

/-- Helper for `splitComma`: accumulates the current token (reversed). -/
def splitCommaAux : List Char → List Char → List (List Char)
  | [], acc => [acc.reverse]
  | c :: rest, acc =>
    if c = ',' then acc.reverse :: splitCommaAux rest []
    else splitCommaAux rest (c :: acc)

/-- Models Python `str.split(",")`: splits at every comma, keeping empty
tokens (`"".split(",") == [""]`). -/
def splitComma (l : List Char) : List (List Char) :=
  splitCommaAux l []

/-- `normalize_ids` (dashboard.py lines 22–24): replace newlines by
commas, split on commas, strip each part, keep the parts that satisfy
`str.isdigit`. -/
def normalize_ids (raw_text : String) : List String :=
  ((splitComma (raw_text.data.map nlToComma)).map
    (fun part => String.mk (listTrim part))).filter pyIsDigitStr

/-- One raw match record as returned by the remote API (the fields the
program reads: `start_time` in epoch seconds, `player_slot`,
`radiant_win`, `kills`, `deaths`, `assists`). -/
structure RawMatch where
  start_time : Int
  player_slot : Nat
  radiant_win : Bool
  kills : Nat
  deaths : Nat
  assists : Nat
deriving DecidableEq

/-- A match row after `fetch_matches` has added the derived `win` and
`loss` columns (dashboard.py lines 39–42). -/
structure Match where
  start_time : Int
  player_slot : Nat
  radiant_win : Bool
  kills : Nat
  deaths : Nat
  assists : Nat
  win : Bool
  loss : Bool
deriving DecidableEq

/-- The per-row outcome derivation (dashboard.py lines 39–42):
`win = (player_slot < 128) == radiant_win`, `loss = ~win`. -/
def deriveOutcome (r : RawMatch) : Match :=
  { start_time := r.start_time, player_slot := r.player_slot,
    radiant_win := r.radiant_win, kills := r.kills, deaths := r.deaths,
    assists := r.assists,
    win := decide (r.player_slot < 128) == r.radiant_win,
    loss := !(decide (r.player_slot < 128) == r.radiant_win) }

/-- A DataFrame of match rows as it occurs in this program: the rows,
plus a flag recording whether the derived columns exist.
`pd.DataFrame(response.json())` for an empty response is a frame with no
columns, and `fetch_matches` returns it before adding any column, so the
zero-match result is `⟨[], false⟩`; accessing `df["win"]` on it raises
`KeyError` even though the frame is empty. -/
structure DF where
  rows : List Match
  hasDerived : Bool
deriving DecidableEq

/-- One remote response: either a transport failure (timeout, connection
error) or an HTTP response with a status code and a JSON body. -/
inductive NetResponse where
  | failure (msg : String)
  | response (status : Nat) (body : List RawMatch)

/-- The two `requests` exception classes `collect_period_summaries`
distinguishes: `requests.HTTPError` and other `requests.RequestException`. -/
inductive FetchErr where
  | network (msg : String)
  | http (msg : String)
deriving DecidableEq

deriving instance DecidableEq for Except

/-- The remote API as an environment: account id, window days and
optional api key determine the response. -/
def NetEnv : Type := Int → Nat → Option String → NetResponse

/-- The body-processing part of `fetch_matches` (dashboard.py lines
35–44): an empty frame is returned as is — without the derived columns —
otherwise the `win`/`loss` columns are added to every row. -/
def fetch_postprocess (body : List RawMatch) : DF :=
  if body.isEmpty then { rows := [], hasDerived := false }
  else { rows := body.map deriveOutcome, hasDerived := true }

/-- `fetch_matches` (dashboard.py lines 27–44) over an explicit network
environment: a transport failure raises `RequestException`,
`raise_for_status` raises `HTTPError` on a 4xx/5xx status, otherwise the
JSON body is converted to a frame and postprocessed. -/
def fetch_matches (net : NetEnv) (account_id : Int) (days : Nat)
    (api_key : Option String) : Except FetchErr DF :=
  match net account_id days api_key with
  | NetResponse.failure msg => Except.error (FetchErr.network msg)
  | NetResponse.response status body =>
    if 400 ≤ status then
      Except.error (FetchErr.http ("status " ++ toString status))
    else Except.ok (fetch_postprocess body)

/-- Round-half-to-even to an integer, as Python `round` does on an exact
value. -/
def roundHalfEven (q : ℚ) : Int :=
  let n : Int := Int.floor q
  let frac : ℚ := q - (n : ℚ)
  if frac < 1 / 2 then n
  else if 1 / 2 < frac then n + 1
  else if n % 2 = 0 then n else n + 1

/-- Python `round(x, 1)` on an exact rational: round half to even at one
decimal place. -/
def pyRound1 (q : ℚ) : ℚ :=
  ((roundHalfEven (10 * q) : Int) : ℚ) / 10

/-- `df.sort_values("start_time", ascending=True)` (dashboard.py line
58): ascending by start timestamp; ties (unspecified by pandas for the
default sort kind) are kept in input order, as numpy's small-array
insertion sort does. -/
def sortByStart (l : List Match) : List Match :=
  List.insertionSort (fun a b => a.start_time ≤ b.start_time) l

/-- The streak loop of `summarize_matches` (dashboard.py lines 59–65):
`current` resets to 0 on a loss and increments on a win, `best` is
updated on every win. -/
def streakLoop : List Bool → Nat → Nat → Nat
  | [], _current, best => best
  | result :: rest, current, best =>
    if result then streakLoop rest (current + 1) (max best (current + 1))
    else streakLoop rest 0 best

/-- The value of the running consecutive-win counter after each record
of the scan, starting from `current`. -/
def runCounter : List Bool → Nat → List Nat
  | [], _current => []
  | result :: rest, current =>
    let next := if result then current + 1 else 0
    next :: runCounter rest next

/-- The maximum value the consecutive-win counter ever reaches on a scan
started at 0 (and 0 for the empty scan). -/
def maxRun (l : List Bool) : Nat :=
  (runCounter l 0).foldr max 0

/-- One summary row as built by `summarize_matches` (dashboard.py lines
66–77).  `loss_rate` is the column `add_loss_rate` may add later;
`summarize_matches` itself leaves it absent (`none`). -/
structure Summary where
  steam_id : String
  label : String
  games : Nat
  wins : Nat
  losses : Nat
  win_rate : ℚ
  avg_k : ℚ
  avg_d : ℚ
  avg_a : ℚ
  best_streak : Nat
  loss_rate : Option ℚ := none
deriving DecidableEq

/-- `summarize_matches` (dashboard.py lines 47–77).  The very first
computation on the frame is `df["win"].sum()`, which raises `KeyError`
when the `win` column is missing — which is the case exactly for the
frame `fetch_matches` returns on a zero-match response.  All later
column accesses are guarded by `if total` and are reached only when the
frame is nonempty, hence has all columns. -/
def summarize_matches (df : DF) (steam_id : String) (label : String) :
    Except String Summary :=
  if df.hasDerived = false then Except.error "KeyError: win"
  else
    let total := df.rows.length
    let wins := df.rows.countP (fun m => m.win)
    let losses := df.rows.countP (fun m => m.loss)
    let win_rate : ℚ := if total = 0 then 0 else (wins : ℚ) / (total : ℚ) * 100
    let avg_k : ℚ :=
      if total = 0 then 0
      else ((df.rows.map (fun m => (m.kills : ℚ))).sum) / (total : ℚ)
    let avg_d : ℚ :=
      if total = 0 then 0
      else ((df.rows.map (fun m => (m.deaths : ℚ))).sum) / (total : ℚ)
    let avg_a : ℚ :=
      if total = 0 then 0
      else ((df.rows.map (fun m => (m.assists : ℚ))).sum) / (total : ℚ)
    let best_streak : Nat :=
      if total = 0 then 0
      else streakLoop ((sortByStart df.rows).map (fun m => m.win)) 0 0
    Except.ok
      { steam_id := steam_id, label := label, games := total, wins := wins,
        losses := losses, win_rate := pyRound1 win_rate,
        avg_k := pyRound1 avg_k, avg_d := pyRound1 avg_d,
        avg_a := pyRound1 avg_a, best_streak := best_streak,
        loss_rate := none }

/-- `collect_period_summaries` (dashboard.py lines 80–100): for each
identifier in order, convert it (invalid → error entry, continue), fetch
(HTTPError / RequestException → error entry, continue), then summarize
and append the row.  The summarize call sits outside the try block, so
an exception it raises propagates and aborts the whole batch — modelled
by the `Except.error` short-circuit. -/
def collect_period_summaries (net : NetEnv) (days : Nat)
    (api_key : Option String) :
    List String → Except String (List Summary × List String)
  | [] => Except.ok ([], [])
  | sid :: rest =>
    match steam64_to_account_id sid with
    | none =>
      (collect_period_summaries net days api_key rest).map
        (fun p => (p.1, ("Invalid Steam64 ID: " ++ sid) :: p.2))
    | some account_id =>
      match fetch_matches net account_id days api_key with
      | Except.error (FetchErr.http msg) =>
        (collect_period_summaries net days api_key rest).map
          (fun p => (p.1, ("HTTP error for " ++ sid ++ ": " ++ msg) :: p.2))
      | Except.error (FetchErr.network msg) =>
        (collect_period_summaries net days api_key rest).map
          (fun p => (p.1, ("Network error for " ++ sid ++ ": " ++ msg) :: p.2))
      | Except.ok matchesDf =>
        match summarize_matches matchesDf sid
            ("Last " ++ toString days ++ " days") with
        | Except.error e => Except.error e
        | Except.ok summary =>
          (collect_period_summaries net days api_key rest).map
            (fun p => (summary :: p.1, p.2))

/-- The outcome of one loop iteration of `collect_period_summaries` for
one identifier, in isolation: a summary row (`Sum.inl`), an error entry
(`Sum.inr`), or — `Except.error` — an uncaught exception. -/
def iterOutcome (net : NetEnv) (days : Nat) (api_key : Option String)
    (sid : String) : Except String (Summary ⊕ String) :=
  match steam64_to_account_id sid with
  | none => Except.ok (Sum.inr ("Invalid Steam64 ID: " ++ sid))
  | some account_id =>
    match fetch_matches net account_id days api_key with
    | Except.error (FetchErr.http msg) =>
      Except.ok (Sum.inr ("HTTP error for " ++ sid ++ ": " ++ msg))
    | Except.error (FetchErr.network msg) =>
      Except.ok (Sum.inr ("Network error for " ++ sid ++ ": " ++ msg))
    | Except.ok matchesDf =>
      (summarize_matches matchesDf sid
        ("Last " ++ toString days ++ " days")).map Sum.inl

/-- The summary row an identifier contributes, if any. -/
def idSummary (net : NetEnv) (days : Nat) (api_key : Option String)
    (sid : String) : Option Summary :=
  match iterOutcome net days api_key sid with
  | Except.ok (Sum.inl s) => some s
  | _ => none

/-- The error entry an identifier contributes, if any. -/
def idError (net : NetEnv) (days : Nat) (api_key : Option String)
    (sid : String) : Option String :=
  match iterOutcome net days api_key sid with
  | Except.ok (Sum.inr e) => some e
  | _ => none

/-- The display projection of `highlight_top_players` (dashboard.py
lines 106–108): the fixed columns plus the value of the chosen metric. -/
structure TopRow where
  steam_id : String
  win_rate : ℚ
  games : Nat
  wins : Nat
  losses : Nat
  metric_value : ℚ
deriving DecidableEq

/-- Projection of one summary row to the display columns
`["steam_id", "win_rate", "games", "wins", "losses", metric]`. -/
def projectTop (metric : Summary → ℚ) (r : Summary) : TopRow :=
  { steam_id := r.steam_id, win_rate := r.win_rate, games := r.games,
    wins := r.wins, losses := r.losses, metric_value := metric r }

/-- `df.sort_values(metric, ascending=False)` (dashboard.py line 106):
pandas computes an ascending argsort and reverses it, so rows tied on
the metric come out in reversed input order. -/
def sortMetricDesc (metric : Summary → ℚ) (df : List Summary) :
    List Summary :=
  (List.insertionSort (fun a b => metric a ≤ metric b) df).reverse

/-- `highlight_top_players` (dashboard.py lines 103–108): empty input is
returned as is; otherwise sort descending by the metric column, take the
first `top_n` rows and project them to the display columns.  The metric
column is modelled as an accessor function. -/
def highlight_top_players (df : List Summary) (metric : Summary → ℚ)
    (top_n : Nat) : List TopRow :=
  if df.isEmpty then []
  else ((sortMetricDesc metric df).take top_n).map (projectTop metric)

/-- The per-row computation of `add_loss_rate` (dashboard.py lines
115–117): `loss_rate = losses / games * 100 if games else 0`. -/
def enrichLossRate (r : Summary) : Summary :=
  { r with
    loss_rate := some (if r.games = 0 then 0 else (r.losses : ℚ) / (r.games : ℚ) * 100) }

/-- Forgets the `loss_rate` column; used to state that `add_loss_rate`
changes nothing else. -/
def stripLossRate (r : Summary) : Summary :=
  { r with loss_rate := none }

/-- `add_loss_rate` (dashboard.py lines 111–118): empty input returned
as is, otherwise a copy of the frame with the `loss_rate` column
(re)computed on every row.  The `df.copy()` in the source makes the
Python version non-mutating; the embedding is pure, so that is implicit
here. -/
def add_loss_rate (df : List Summary) : List Summary :=
  if df.isEmpty then df else df.map enrichLossRate

/-! Concrete fixtures used by the example parts of the claims. -/

/-- A remote that reports zero matches for every request. -/
def netEmpty : NetEnv := fun _ _ _ => NetResponse.response 200 []

/-- A concrete raw match: a win for a slot-3 player. -/
def rawWin : RawMatch :=
  { start_time := 100, player_slot := 3, radiant_win := true,
    kills := 7, deaths := 2, assists := 9 }

/-- A remote that returns exactly one match for every request. -/
def netOne : NetEnv := fun _ _ _ => NetResponse.response 200 [rawWin]

/-- A match row with a given timestamp and outcome (other fields fixed);
used to build the chronological-streak example. -/
def mkOutcomeRow (t : Int) (w : Bool) : Match :=
  { start_time := t, player_slot := 3, radiant_win := w,
    kills := 1, deaths := 2, assists := 3, win := w, loss := !w }

/-- The chronological win sequence `[win, win, loss, win, win, win,
loss]` of the C3 example, timestamps already in ascending order. -/
def streakExampleRows : List Match :=
  [mkOutcomeRow 1 true, mkOutcomeRow 2 true, mkOutcomeRow 3 false,
   mkOutcomeRow 4 true, mkOutcomeRow 5 true, mkOutcomeRow 6 true,
   mkOutcomeRow 7 false]

/-- A summary row with the given identifier and win rate (other fields
fixed); used for ranking examples. -/
def mkRateRow (sid : String) (rate : ℚ) : Summary :=
  { steam_id := sid, label := "Last 7 days", games := 10, wins := 5,
    losses := 5, win_rate := rate, avg_k := 1, avg_d := 2, avg_a := 3,
    best_streak := 2, loss_rate := none }

/-- Three match rows, two wins and one loss, for the win-rate witness. -/
def rateExampleRows : List Match :=
  [mkOutcomeRow 1 true, mkOutcomeRow 2 true, mkOutcomeRow 3 false]

/-- Two summary rows tied on `win_rate`; input order `tieA` then `tieB`. -/
def tieA : Summary := mkRateRow "A" 50

/-- Second row of the tie example. -/
def tieB : Summary := mkRateRow "B" 50


/-! Fixed raw records for the outcome-derivation examples of C4. -/

/-- Example record: `player_slot = 0`, `radiant_win = true`. -/
def exSlot0 : RawMatch :=
  { start_time := 0, player_slot := 0, radiant_win := true,
    kills := 0, deaths := 0, assists := 0 }

/-- Example record: `player_slot = 128`, `radiant_win = true`. -/
def exSlot128 : RawMatch :=
  { start_time := 0, player_slot := 128, radiant_win := true,
    kills := 0, deaths := 0, assists := 0 }

/-- Example record: `player_slot = 129`, `radiant_win = false`. -/
def exSlot129 : RawMatch :=
  { start_time := 0, player_slot := 129, radiant_win := false,
    kills := 0, deaths := 0, assists := 0 }

/-! Helper lemmas. -/

theorem streakLoop_eq_max_foldr (l : List Bool) : ∀ current best : Nat,
    streakLoop l current best = max best ((runCounter l current).foldr max 0) := by
  induction l with
  | nil =>
    intro c b
    rw [show streakLoop [] c b = b from rfl,
      show runCounter [] c = [] from rfl, List.foldr_nil, Nat.max_zero]
  | cons r rest ih =>
    intro c b
    cases r
    · rw [show streakLoop (false :: rest) c b = streakLoop rest 0 b from rfl,
        show runCounter (false :: rest) c = 0 :: runCounter rest 0 from rfl,
        ih 0 b, List.foldr_cons, Nat.zero_max]
    · rw [show streakLoop (true :: rest) c b =
          streakLoop rest (c + 1) (max b (c + 1)) from rfl,
        show runCounter (true :: rest) c = (c + 1) :: runCounter rest (c + 1) from rfl,
        ih (c + 1) (max b (c + 1)), List.foldr_cons, Nat.max_assoc]

theorem runCounter_foldr_le (l : List Bool) : ∀ c : Nat,
    (runCounter l c).foldr max 0 ≤ c + l.countP (fun b => b) := by
  induction l with
  | nil => intro c; simp [runCounter]
  | cons r rest ih =>
    intro c
    cases r
    · have h0 := ih 0
      rw [show runCounter (false :: rest) c = 0 :: runCounter rest 0 from rfl,
        List.foldr_cons, Nat.zero_max,
        show (false :: rest).countP (fun b => b) = rest.countP (fun b => b) by
          simp [List.countP_cons]]
      omega
    · have h1 := ih (c + 1)
      rw [show runCounter (true :: rest) c = (c + 1) :: runCounter rest (c + 1) from rfl,
        List.foldr_cons,
        show (true :: rest).countP (fun b => b) = rest.countP (fun b => b) + 1 by
          simp [List.countP_cons],
        Nat.max_le]
      omega

theorem maxRun_le_countP (l : List Bool) : maxRun l ≤ l.countP (fun b => b) := by
  have h := runCounter_foldr_le l 0
  simpa [maxRun] using h

theorem countP_win_add_countP_loss (rows : List Match)
    (hl : ∀ m ∈ rows, m.loss = !m.win) :
    rows.countP (fun m => m.win) + rows.countP (fun m => m.loss) = rows.length := by
  induction rows with
  | nil => rfl
  | cons m rest ih =>
    have hm : m.loss = !m.win := hl m (List.mem_cons_self m rest)
    have hr : ∀ x ∈ rest, x.loss = !x.win := fun x hx => hl x (List.mem_cons_of_mem m hx)
    have ihr := ih hr
    simp only [List.countP_cons, List.length_cons, hm]
    cases hwin : m.win <;> simp <;> omega

theorem sortByStart_perm (rows : List Match) : (sortByStart rows).Perm rows :=
  List.perm_insertionSort _ rows

theorem sortByStart_sorted (rows : List Match) :
    List.Pairwise (fun a b : Match => a.start_time ≤ b.start_time) (sortByStart rows) := by
  haveI : IsTotal Match (fun a b => a.start_time ≤ b.start_time) :=
    ⟨fun a b => Int.le_total a.start_time b.start_time⟩
  haveI : IsTrans Match (fun a b => a.start_time ≤ b.start_time) :=
    ⟨fun a b c hab hbc => Int.le_trans hab hbc⟩
  exact List.sorted_insertionSort _ rows

theorem summarize_ok_of_hasDerived (df : DF) (sid lbl : String)
    (h : df.hasDerived = true) :
    ∃ s, summarize_matches df sid lbl = Except.ok s := by
  unfold summarize_matches
  rw [if_neg (by simp [h])]
  exact ⟨_, rfl⟩

theorem pyRound1_zero : pyRound1 0 = 0 := by
  have h10 : (10 : ℚ) * 0 = 0 := by norm_num
  have hfl : roundHalfEven 0 = 0 := by
    unfold roundHalfEven
    norm_num
  unfold pyRound1
  rw [h10, hfl]
  norm_num


theorem summarize_matches_ok (rows : List Match) (sid lbl : String) :
    summarize_matches { rows := rows, hasDerived := true } sid lbl =
      Except.ok
        { steam_id := sid, label := lbl, games := rows.length,
          wins := rows.countP (fun m => m.win),
          losses := rows.countP (fun m => m.loss),
          win_rate := pyRound1 (if rows.length = 0 then 0
            else (rows.countP (fun m => m.win) : ℚ) / (rows.length : ℚ) * 100),
          avg_k := pyRound1 (if rows.length = 0 then 0
            else ((rows.map (fun m => (m.kills : ℚ))).sum) / (rows.length : ℚ)),
          avg_d := pyRound1 (if rows.length = 0 then 0
            else ((rows.map (fun m => (m.deaths : ℚ))).sum) / (rows.length : ℚ)),
          avg_a := pyRound1 (if rows.length = 0 then 0
            else ((rows.map (fun m => (m.assists : ℚ))).sum) / (rows.length : ℚ)),
          best_streak := if rows.length = 0 then 0
            else streakLoop ((sortByStart rows).map (fun m => m.win)) 0 0,
          loss_rate := none } := by
  unfold summarize_matches
  rw [if_neg (by simp)]

/-- C1.  The claim says `summarize` on the empty record set returns the
all-zero summary and in particular returns normally on the empty frame
`fetch_matches` yields for a zero-match response.  The code disagrees:
that frame is returned before the derived columns are added (first
conjunct), and `summarize_matches` raises `KeyError` on it because its
very first step reads the missing `win` column (second conjunct).  The
third conjunct shows the all-zero summary the claim describes is what
the remaining code would produce if the column were present, i.e. the
`if total else 0` guards in the source are written for exactly this case
but are never reached. -/
theorem summarize_empty_frame_keyerror :
    fetch_matches netEmpty 1 7 none = Except.ok { rows := [], hasDerived := false } ∧
    summarize_matches { rows := [], hasDerived := false } "x" "Last 7 days" =
      Except.error "KeyError: win" ∧
    summarize_matches { rows := [], hasDerived := true } "x" "Last 7 days" =
      Except.ok
        { steam_id := "x", label := "Last 7 days", games := 0, wins := 0,
          losses := 0, win_rate := 0, avg_k := 0, avg_d := 0, avg_a := 0,
          best_streak := 0, loss_rate := none } := by
  refine ⟨by decide, by decide, ?_⟩
  rw [summarize_matches_ok]
  simp [pyRound1_zero]

/-- C3.  For a nonempty record set, the summarizer sorts the records
ascending by start timestamp (first two conjuncts: the scan order is
sorted and is a permutation of the input) and `best_streak` equals the
maximum value reached by the running consecutive-win counter over that
order — `maxRun`, the fold of the counter trace. -/
theorem best_streak_is_max_counter (rows : List Match) (sid lbl : String)
    (h : rows ≠ []) :
    List.Pairwise (fun a b : Match => a.start_time ≤ b.start_time) (sortByStart rows) ∧
    (sortByStart rows).Perm rows ∧
    ∃ s, summarize_matches { rows := rows, hasDerived := true } sid lbl = Except.ok s ∧
      s.best_streak = maxRun ((sortByStart rows).map (fun m => m.win)) := by
  have hlen : rows.length ≠ 0 := by simpa [List.length_eq_zero] using h
  refine ⟨sortByStart_sorted rows, sortByStart_perm rows, _, summarize_matches_ok rows sid lbl, ?_⟩
  show (if rows.length = 0 then 0
      else streakLoop ((sortByStart rows).map (fun m => m.win)) 0 0) =
    maxRun ((sortByStart rows).map (fun m => m.win))
  rw [if_neg hlen, streakLoop_eq_max_foldr, Nat.zero_max]
  rfl

/-- Witness for C3: the chronological win sequence
`[win, win, loss, win, win, win, loss]` and the computed maximum streak
value 3. -/
theorem best_streak_is_max_counter_witness :
    (List.Pairwise (fun a b : Match => a.start_time ≤ b.start_time)
        (sortByStart streakExampleRows) ∧
      (sortByStart streakExampleRows).Perm streakExampleRows ∧
      ∃ s, summarize_matches { rows := streakExampleRows, hasDerived := true }
          "p" "Last 7 days" = Except.ok s ∧
        s.best_streak = maxRun ((sortByStart streakExampleRows).map (fun m => m.win))) ∧
    maxRun ((sortByStart streakExampleRows).map (fun m => m.win)) = 3 :=
  ⟨best_streak_is_max_counter streakExampleRows "p" "Last 7 days" (by decide), by decide⟩

/-- C4.  The derived `win` attribute is `(player_slot < 128) ==
radiant_win` and `loss` is its negation (first conjunct); equivalently
`win` holds iff slot-below-128 agrees with `radiant_win` (second
conjunct); `fetch_matches` applies this derivation to every row of the
frame (third conjunct); and the three examples of the claim:
slot 0 with `radiant_win` → win, slot 128 with `radiant_win` → loss,
slot 129 with `¬radiant_win` → win. -/
theorem outcome_derivation :
    (∀ r : RawMatch,
      (deriveOutcome r).win = (decide (r.player_slot < 128) == r.radiant_win) ∧
      (deriveOutcome r).loss = !(deriveOutcome r).win) ∧
    (∀ r : RawMatch,
      ((deriveOutcome r).win = true ↔ (r.player_slot < 128 ↔ r.radiant_win = true))) ∧
    (∀ body : List RawMatch, (fetch_postprocess body).rows = body.map deriveOutcome) ∧
    (deriveOutcome exSlot0).win = true ∧
    (deriveOutcome exSlot128).win = false ∧
    (deriveOutcome exSlot129).win = true := by
  refine ⟨fun r => ⟨rfl, rfl⟩, fun r => ?_, fun body => ?_, by decide, by decide, by decide⟩
  · cases hb : r.radiant_win <;> by_cases hs : r.player_slot < 128 <;>
      simp [deriveOutcome, hb, hs]
  · cases body <;> rfl

/-- C10.  For every nonempty fetched record set (rows carrying the
derived `win`/`loss` attributes), the summary satisfies
`wins + losses = games` and `best_streak ≤ wins`. -/
theorem summary_invariants (body : List RawMatch) (sid lbl : String)
    (h : body ≠ []) :
    ∃ s, summarize_matches (fetch_postprocess body) sid lbl = Except.ok s ∧
      s.wins + s.losses = s.games ∧ s.best_streak ≤ s.wins := by
  have hpost : fetch_postprocess body =
      { rows := body.map deriveOutcome, hasDerived := true } := by
    unfold fetch_postprocess
    rw [if_neg (by simpa using h)]
  have hl : ∀ m ∈ body.map deriveOutcome, m.loss = !m.win := by
    intro m hm
    obtain ⟨r, _hr, rfl⟩ := List.mem_map.mp hm
    rfl
  have hne : body.map deriveOutcome ≠ [] := by
    intro hcon
    exact h (List.map_eq_nil_iff.mp hcon)
  have hlen : (body.map deriveOutcome).length ≠ 0 := by
    simpa [List.length_eq_zero] using hne
  rw [hpost, summarize_matches_ok]
  refine ⟨_, rfl, ?_, ?_⟩
  · exact countP_win_add_countP_loss (body.map deriveOutcome) hl
  · show (if (body.map deriveOutcome).length = 0 then 0
        else streakLoop ((sortByStart (body.map deriveOutcome)).map (fun m => m.win)) 0 0) ≤
      (body.map deriveOutcome).countP (fun m => m.win)
    rw [if_neg hlen, streakLoop_eq_max_foldr, Nat.zero_max]
    calc (runCounter ((sortByStart (body.map deriveOutcome)).map (fun m => m.win)) 0).foldr max 0
        ≤ ((sortByStart (body.map deriveOutcome)).map (fun m => m.win)).countP (fun b => b) :=
          maxRun_le_countP _
      _ = (sortByStart (body.map deriveOutcome)).countP (fun m => m.win) := by
          rw [List.countP_map]
          rfl
      _ = (body.map deriveOutcome).countP (fun m => m.win) :=
          (sortByStart_perm (body.map deriveOutcome)).countP_eq _

/-- Witness for C10 at the one-record fetched set for `rawWin`. -/
theorem summary_invariants_witness :
    ∃ s, summarize_matches (fetch_postprocess [rawWin]) "p" "Last 7 days" = Except.ok s ∧
      s.wins + s.losses = s.games ∧ s.best_streak ≤ s.wins :=
  summary_invariants [rawWin] "p" "Last 7 days" (by decide)


theorem add_loss_rate_eq_map (df : List Summary) :
    add_loss_rate df = df.map enrichLossRate := by
  cases df <;> rfl

/-- C9.  `add_loss_rate` maps `enrichLossRate` over the rows (first
conjunct; the Python version copies the frame first, and the embedding
is pure, so non-mutation of the input is implicit); it is idempotent
(second conjunct); every output row's `loss_rate` is
`losses / games * 100`, or 0 when `games = 0` (third conjunct); and no
other field is touched (fourth conjunct). -/
theorem add_loss_rate_spec (df : List Summary) :
    add_loss_rate df = df.map enrichLossRate ∧
    add_loss_rate (add_loss_rate df) = add_loss_rate df ∧
    (add_loss_rate df).map (fun r => r.loss_rate) =
      df.map (fun r => some (if r.games = 0 then (0 : ℚ)
        else (r.losses : ℚ) / (r.games : ℚ) * 100)) ∧
    (add_loss_rate df).map stripLossRate = df.map stripLossRate := by
  have hee : ∀ r : Summary, enrichLossRate (enrichLossRate r) = enrichLossRate r :=
    fun r => rfl
  refine ⟨add_loss_rate_eq_map df, ?_, ?_, ?_⟩
  · rw [add_loss_rate_eq_map df, add_loss_rate_eq_map (df.map enrichLossRate),
      List.map_map]
    simp only [Function.comp_def, hee]
  · rw [add_loss_rate_eq_map df, List.map_map]
    rfl
  · rw [add_loss_rate_eq_map df, List.map_map]
    rfl

/-- C6.  For a nonempty record set whose rows carry consistent derived
outcomes, the summary's `win_rate` is exactly
`round(100 * W / (W + L), 1)` for `W` wins and `L` losses, and any
permutation of the record order yields the same `win_rate`. -/
theorem win_rate_round_formula (rows : List Match) (sid lbl : String)
    (h : rows ≠ []) (hl : ∀ m ∈ rows, m.loss = !m.win) :
    ∃ s, summarize_matches { rows := rows, hasDerived := true } sid lbl = Except.ok s ∧
      s.win_rate = pyRound1 (100 * (rows.countP (fun m => m.win) : ℚ) /
        ((rows.countP (fun m => m.win) : ℚ) + (rows.countP (fun m => m.loss) : ℚ))) ∧
      ∀ rows2 : List Match, rows.Perm rows2 →
        ∃ s2, summarize_matches { rows := rows2, hasDerived := true } sid lbl =
            Except.ok s2 ∧ s2.win_rate = s.win_rate := by
  have hlen : rows.length ≠ 0 := by simpa [List.length_eq_zero] using h
  have hWL := countP_win_add_countP_loss rows hl
  refine ⟨_, summarize_matches_ok rows sid lbl, ?_, ?_⟩
  · show pyRound1 (if rows.length = 0 then 0
        else (rows.countP (fun m => m.win) : ℚ) / (rows.length : ℚ) * 100) =
      pyRound1 (100 * (rows.countP (fun m => m.win) : ℚ) /
        ((rows.countP (fun m => m.win) : ℚ) + (rows.countP (fun m => m.loss) : ℚ)))
    rw [if_neg hlen]
    have hcast : ((rows.length : ℚ)) =
        (rows.countP (fun m => m.win) : ℚ) + (rows.countP (fun m => m.loss) : ℚ) := by
      rw [← hWL]
      push_cast
      ring
    rw [hcast]
    ring_nf
  · intro rows2 hperm
    have h1 : rows2.length = rows.length := hperm.length_eq.symm
    have h2 : rows2.countP (fun m => m.win) = rows.countP (fun m => m.win) :=
      (hperm.countP_eq _).symm
    refine ⟨_, summarize_matches_ok rows2 sid lbl, ?_⟩
    show pyRound1 (if rows2.length = 0 then 0
        else (rows2.countP (fun m => m.win) : ℚ) / (rows2.length : ℚ) * 100) =
      pyRound1 (if rows.length = 0 then 0
        else (rows.countP (fun m => m.win) : ℚ) / (rows.length : ℚ) * 100)
    rw [h1, h2]

/-- Witness for C6 at the two-wins-one-loss record set. -/
theorem win_rate_round_formula_witness :
    ∃ s, summarize_matches { rows := rateExampleRows, hasDerived := true }
        "p" "Last 7 days" = Except.ok s ∧
      s.win_rate = pyRound1 (100 * (rateExampleRows.countP (fun m => m.win) : ℚ) /
        ((rateExampleRows.countP (fun m => m.win) : ℚ) +
          (rateExampleRows.countP (fun m => m.loss) : ℚ))) ∧
      ∀ rows2 : List Match, rateExampleRows.Perm rows2 →
        ∃ s2, summarize_matches { rows := rows2, hasDerived := true }
            "p" "Last 7 days" = Except.ok s2 ∧ s2.win_rate = s.win_rate :=
  win_rate_round_formula rateExampleRows "p" "Last 7 days" (by decide) (by decide)

/-- C8.  `normalize_ids` on the claim's example, a
whitespace-and-duplicates example, and in general: its output is a
sublist of the trimmed token list (so input order is preserved and
duplicates are kept), and every surviving token passes the digit
test. -/
theorem normalize_ids_spec :
    normalize_ids "123, abc\n456" = ["123", "456"] ∧
    normalize_ids " 123 ,7,7" = ["123", "7", "7"] ∧
    ∀ raw : String,
      (normalize_ids raw).Sublist
        ((splitComma (raw.data.map nlToComma)).map
          (fun part => String.mk (listTrim part))) ∧
      (normalize_ids raw).all pyIsDigitStr = true := by
  refine ⟨by decide, by decide, fun raw => ⟨List.filter_sublist _, ?_⟩⟩
  rw [List.all_eq_true]
  intro a ha
  exact (List.mem_filter.mp ha).2

/-- Counterexample to C8 as stated: the token "²" is not composed of
decimal digits, yet `normalize_ids` keeps it, because Python
`str.isdigit` also accepts superscript digit characters. -/
theorem normalize_ids_keeps_nondecimal_digit :
    normalize_ids "²" = ["²"] ∧ ("²".data.all Char.isDigit) = false ∧
    pyIsDigit '²' = true := by
  exact ⟨by decide, by decide, by decide⟩

theorem isDigit_not_whitespace (c : Char) (h : c.isDigit = true) :
    c.isWhitespace = false := by
  by_contra hw
  rw [Bool.not_eq_false] at hw
  have hcases : ((c = ' ' ∨ c = '\t') ∨ c = '\x0d') ∨ c = '\n' := by
    simpa [Char.isWhitespace] using hw
  rcases hcases with ((h1 | h1) | h1) | h1 <;> subst h1 <;> exact absurd h (by decide)

theorem dropWhile_ws_of_digits (l : List Char) (h : ∀ c ∈ l, c.isDigit = true) :
    l.dropWhile Char.isWhitespace = l := by
  cases l with
  | nil => rfl
  | cons a t =>
    rw [List.dropWhile_cons,
      isDigit_not_whitespace a (h a (List.mem_cons_self a t))]
    simp

theorem listTrim_of_digits (l : List Char) (h : ∀ c ∈ l, c.isDigit = true) :
    listTrim l = l := by
  unfold listTrim
  rw [dropWhile_ws_of_digits l h,
    dropWhile_ws_of_digits l.reverse (fun c hc => h c (List.mem_reverse.mp hc)),
    List.reverse_reverse]

/-- C7 (amended to decimal-digit tokens).  For every string of ASCII
decimal digits, `steam64_to_account_id` succeeds and equals the decimal
value minus `STEAM_EPOCH`, exactly; nothing rejects a negative result. -/
theorem account_id_of_digit_string (s : String) (h1 : s.data ≠ [])
    (h2 : s.data.all Char.isDigit = true) :
    steam64_to_account_id s = some ((digitsToNat s.data : Int) - STEAM_EPOCH) := by
  have hall : ∀ c ∈ s.data, c.isDigit = true := List.all_eq_true.mp h2
  unfold steam64_to_account_id pyInt
  rw [listTrim_of_digits s.data hall]
  cases hd : s.data with
  | nil => exact absurd hd h1
  | cons c rest =>
    have hc : c.isDigit = true := hall c (by rw [hd]; exact List.mem_cons_self c rest)
    have hcm : ¬(c = '-') := fun hh => absurd hc (by rw [hh]; decide)
    have hcp : ¬(c = '+') := fun hh => absurd hc (by rw [hh]; decide)
    have hdall : (c :: rest).all Char.isDigit = true := by rw [← hd]; exact h2
    have hred : pyIntCore (c :: rest) =
        (if c = '-' then
          (if (!rest.isEmpty && rest.all Char.isDigit) = true then
            some (-(digitsToNat rest : Int)) else none)
        else if c = '+' then
          (if (!rest.isEmpty && rest.all Char.isDigit) = true then
            some ((digitsToNat rest : Int)) else none)
        else if (c :: rest).all Char.isDigit = true then
          some ((digitsToNat (c :: rest) : Int)) else none) := rfl
    rw [hred, if_neg hcm, if_neg hcp, if_pos hdall]
    rfl

/-- Witness for C7: the digit string "5" converts to `5 - STEAM_EPOCH`,
which is negative and still returned as a value, not an error. -/
theorem account_id_of_digit_string_witness :
    ("5".data ≠ [] ∧ "5".data.all Char.isDigit = true) ∧
    steam64_to_account_id "5" = some ((digitsToNat "5".data : Int) - STEAM_EPOCH) ∧
    ((digitsToNat "5".data : Int) - STEAM_EPOCH) < 0 :=
  ⟨⟨by decide, by decide⟩,
    account_id_of_digit_string "5" (by decide) (by decide), by decide⟩

/-- Counterexample to C7 as stated: "²" is a token `normalize_ids`
returns (Python `str.isdigit` accepts the superscript-two character),
but the conversion fails on it (Python `int()` raises `ValueError`), so
not every token from `normalizeIdentifierList` converts successfully. -/
theorem normalize_token_conversion_fails :
    normalize_ids "²" = ["²"] ∧ steam64_to_account_id "²" = none := by
  exact ⟨by decide, by decide⟩


theorem sortMetricDesc_perm (metric : Summary → ℚ) (df : List Summary) :
    (sortMetricDesc metric df).Perm df :=
  (List.reverse_perm _).trans (List.perm_insertionSort _ df)

theorem sortMetricDesc_sorted (metric : Summary → ℚ) (df : List Summary) :
    List.Pairwise (fun a b => metric b ≤ metric a) (sortMetricDesc metric df) := by
  haveI : IsTotal Summary (fun a b => metric a ≤ metric b) :=
    ⟨fun a b => le_total (metric a) (metric b)⟩
  haveI : IsTrans Summary (fun a b => metric a ≤ metric b) :=
    ⟨fun a b c hab hbc => le_trans hab hbc⟩
  have hs := List.sorted_insertionSort (fun a b => metric a ≤ metric b) df
  unfold sortMetricDesc
  rw [List.pairwise_reverse]
  exact hs

/-- C5 (amended on tie order).  `highlight_top_players` returns the
empty result on empty input (first conjunct); it equals the
sort-descending / take-n / project pipeline (second conjunct); it
returns `min n (length df)` rows (third conjunct) sorted nonincreasingly
by the metric value (fourth conjunct), each the projection of an input
row (fifth conjunct).  Tie order is settled by the counterexample
theorem: ties come out reversed, not in original order. -/
theorem highlight_top_players_desc_take_project (df : List Summary)
    (metric : Summary → ℚ) (top_n : Nat) :
    highlight_top_players [] metric top_n = [] ∧
    highlight_top_players df metric top_n =
      ((sortMetricDesc metric df).take top_n).map (projectTop metric) ∧
    (highlight_top_players df metric top_n).length = min top_n df.length ∧
    List.Pairwise (fun a b : TopRow => b.metric_value ≤ a.metric_value)
      (highlight_top_players df metric top_n) ∧
    ∀ t ∈ highlight_top_players df metric top_n,
      ∃ r ∈ df, t = projectTop metric r := by
  have heq : highlight_top_players df metric top_n =
      ((sortMetricDesc metric df).take top_n).map (projectTop metric) := by
    unfold highlight_top_players
    by_cases hdf : df.isEmpty
    · rw [if_pos hdf]
      rw [List.isEmpty_iff.mp hdf]
      simp [sortMetricDesc]
    · rw [if_neg hdf]
  refine ⟨rfl, heq, ?_, ?_, ?_⟩
  · rw [heq, List.length_map, List.length_take,
      (sortMetricDesc_perm metric df).length_eq]
  · rw [heq]
    refine List.pairwise_map.mpr ?_
    exact ((sortMetricDesc_sorted metric df).sublist (List.take_sublist _ _))
  · intro t ht
    rw [heq] at ht
    obtain ⟨r, hr, rfl⟩ := List.mem_map.mp ht
    exact ⟨r, (sortMetricDesc_perm metric df).mem_iff.mp
      (List.take_subset _ _ hr), rfl⟩

/-- Counterexample to C5's stability clause: `tieA` and `tieB` are tied
on `win_rate` and appear in the input in that order, yet the output
lists `tieB` first — ties do not retain their original relative order
(pandas reverses an ascending argsort to sort descending). -/
theorem highlight_top_players_tie_order_reversed :
    tieA.win_rate = tieB.win_rate ∧
    highlight_top_players [tieA, tieB] (fun r => r.win_rate) 3 =
      [projectTop (fun r => r.win_rate) tieB, projectTop (fun r => r.win_rate) tieA] ∧
    highlight_top_players [tieA, tieB] (fun r => r.win_rate) 3 ≠
      [projectTop (fun r => r.win_rate) tieA, projectTop (fun r => r.win_rate) tieB] := by
  exact ⟨by decide, by decide, by decide⟩


theorem fetch_ok_hasDerived (net : NetEnv) (a : Int) (d : Nat) (k : Option String)
    (df : DF) (h : fetch_matches net a d k = Except.ok df) (hr : df.rows ≠ []) :
    df.hasDerived = true := by
  unfold fetch_matches at h
  cases hn : net a d k with
  | failure msg =>
    rw [hn] at h
    exact Except.noConfusion h
  | response status body =>
    rw [hn] at h
    have h2 : (if 400 ≤ status then
        Except.error (FetchErr.http ("status " ++ toString status))
      else Except.ok (fetch_postprocess body)) = Except.ok df := h
    by_cases hst : 400 ≤ status
    · rw [if_pos hst] at h2
      exact Except.noConfusion h2
    · rw [if_neg hst] at h2
      have hdf : fetch_postprocess body = df := Except.ok.inj h2
      rw [← hdf] at hr
      rw [← hdf]
      unfold fetch_postprocess at hr ⊢
      by_cases hb : body.isEmpty
      · rw [if_pos hb] at hr
        exact absurd rfl hr
      · rw [if_neg hb]

theorem collect_cons (net : NetEnv) (days : Nat) (api_key : Option String)
    (sid : String) (rest : List String) :
    collect_period_summaries net days api_key (sid :: rest) =
      match iterOutcome net days api_key sid with
      | Except.error e => Except.error e
      | Except.ok (Sum.inl s) =>
        (collect_period_summaries net days api_key rest).map
          (fun p => (s :: p.1, p.2))
      | Except.ok (Sum.inr e) =>
        (collect_period_summaries net days api_key rest).map
          (fun p => (p.1, e :: p.2)) := by
  cases h1 : steam64_to_account_id sid with
  | none => simp [collect_period_summaries, iterOutcome, h1, Except.map]
  | some aid =>
    cases h2 : fetch_matches net aid days api_key with
    | error e =>
      cases e <;> simp [collect_period_summaries, iterOutcome, h1, h2, Except.map]
    | ok mdf =>
      cases h3 : summarize_matches mdf sid ("Last " ++ toString days ++ " days") with
      | error e => simp [collect_period_summaries, iterOutcome, h1, h2, h3, Except.map]
      | ok summ => simp [collect_period_summaries, iterOutcome, h1, h2, h3, Except.map]

theorem iterOutcome_ok (net : NetEnv) (days : Nat) (api_key : Option String)
    (hne : ∀ a df, fetch_matches net a days api_key = Except.ok df → df.rows ≠ [])
    (sid : String) :
    ∃ r, iterOutcome net days api_key sid = Except.ok r := by
  cases h1 : steam64_to_account_id sid with
  | none =>
    exact ⟨Sum.inr ("Invalid Steam64 ID: " ++ sid), by simp [iterOutcome, h1]⟩
  | some aid =>
    cases h2 : fetch_matches net aid days api_key with
    | error e =>
      cases e with
      | network msg =>
        exact ⟨Sum.inr ("Network error for " ++ sid ++ ": " ++ msg),
          by simp [iterOutcome, h1, h2]⟩
      | http msg =>
        exact ⟨Sum.inr ("HTTP error for " ++ sid ++ ": " ++ msg),
          by simp [iterOutcome, h1, h2]⟩
    | ok mdf =>
      have hd : mdf.hasDerived = true :=
        fetch_ok_hasDerived net aid days api_key mdf h2 (hne aid mdf h2)
      obtain ⟨s, hs⟩ :=
        summarize_ok_of_hasDerived mdf sid ("Last " ++ toString days ++ " days") hd
      exact ⟨Sum.inl s, by simp [iterOutcome, h1, h2, hs, Except.map]⟩

/-- C2 (amended: provided every successful fetch returns at least one
match record, so that the derived columns are present).  The batch then
returns normally; the summaries are exactly the per-identifier summary
outcomes in input order and the error entries exactly the
per-identifier error outcomes in input order (first conjunct); every
identifier yields exactly one of the two (second conjunct: the counts
add up to the number of identifiers; third conjunct: for each
identifier, a summary or an error entry, never both, never neither).
Conversion, network and HTTP errors never abort the batch — they only
ever add an error entry for their own identifier. -/
theorem collect_outcomes_of_nonempty_fetches (net : NetEnv) (days : Nat)
    (api_key : Option String) (ids : List String)
    (hne : ∀ a df, fetch_matches net a days api_key = Except.ok df → df.rows ≠ []) :
    collect_period_summaries net days api_key ids =
      Except.ok (ids.filterMap (idSummary net days api_key),
        ids.filterMap (idError net days api_key)) ∧
    (ids.filterMap (idSummary net days api_key)).length +
      (ids.filterMap (idError net days api_key)).length = ids.length ∧
    ∀ sid ∈ ids,
      ((idSummary net days api_key sid).isSome = true ∧
        idError net days api_key sid = none) ∨
      (idSummary net days api_key sid = none ∧
        (idError net days api_key sid).isSome = true) := by
  induction ids with
  | nil => exact ⟨rfl, rfl, fun sid h => absurd h (List.not_mem_nil sid)⟩
  | cons sid rest ih =>
    obtain ⟨hc, hlen, hmem⟩ := ih
    obtain ⟨r, hr⟩ := iterOutcome_ok net days api_key hne sid
    have hstep := collect_cons net days api_key sid rest
    cases r with
    | inl s =>
      have hS : idSummary net days api_key sid = some s := by
        unfold idSummary
        rw [hr]
      have hE : idError net days api_key sid = none := by
        unfold idError
        rw [hr]
      refine ⟨?_, ?_, ?_⟩
      · rw [hstep, hr, hc]
        simp [List.filterMap_cons, hS, hE, Except.map]
      · simp only [List.filterMap_cons, hS, hE, List.length_cons]
        omega
      · intro sid2 hmem2
        rcases List.mem_cons.mp hmem2 with h | h
        · subst h
          exact Or.inl ⟨by rw [hS]; rfl, hE⟩
        · exact hmem sid2 h
    | inr e =>
      have hS : idSummary net days api_key sid = none := by
        unfold idSummary
        rw [hr]
      have hE : idError net days api_key sid = some e := by
        unfold idError
        rw [hr]
      refine ⟨?_, ?_, ?_⟩
      · rw [hstep, hr, hc]
        simp [List.filterMap_cons, hS, hE, Except.map]
      · simp only [List.filterMap_cons, hS, hE, List.length_cons]
        omega
      · intro sid2 hmem2
        rcases List.mem_cons.mp hmem2 with h | h
        · subst h
          exact Or.inr ⟨hS, by rw [hE]; rfl⟩
        · exact hmem sid2 h

/-- Witness for C2 (amended), realising the spec's example: over
`["bad_id", "76561198355928347"]` with the second identifier fetching
one valid match, the batch returns exactly one summary and exactly one
error entry. -/
theorem collect_outcomes_of_nonempty_fetches_witness :
    (collect_period_summaries netOne 7 none ["bad_id", "76561198355928347"] =
        Except.ok ((["bad_id", "76561198355928347"].filterMap (idSummary netOne 7 none)),
          (["bad_id", "76561198355928347"].filterMap (idError netOne 7 none))) ∧
      (["bad_id", "76561198355928347"].filterMap (idSummary netOne 7 none)).length +
        (["bad_id", "76561198355928347"].filterMap (idError netOne 7 none)).length =
        (["bad_id", "76561198355928347"] : List String).length ∧
      ∀ sid ∈ (["bad_id", "76561198355928347"] : List String),
        ((idSummary netOne 7 none sid).isSome = true ∧
          idError netOne 7 none sid = none) ∨
        (idSummary netOne 7 none sid = none ∧
          (idError netOne 7 none sid).isSome = true)) ∧
    (["bad_id", "76561198355928347"].filterMap (idSummary netOne 7 none)).length = 1 ∧
    (["bad_id", "76561198355928347"].filterMap (idError netOne 7 none)).length = 1 :=
  ⟨collect_outcomes_of_nonempty_fetches netOne 7 none _
      (fun a df hdf => by
        have h0 : fetch_matches netOne a 7 none =
            Except.ok (fetch_postprocess [rawWin]) := rfl
        rw [h0] at hdf
        injection hdf with h2
        rw [← h2]
        decide),
    by decide, by decide⟩

/-- Counterexample to C2 as stated: with a remote that reports zero
matches for the first identifier, `summarize_matches` raises `KeyError`,
the whole batch aborts, and no identifier yields a summary or an error
entry — the second identifier is never processed although no
conversion, network or HTTP error occurred anywhere. -/
theorem collect_aborts_on_zero_match_fetch :
    collect_period_summaries netEmpty 7 none ["1", "2"] =
      Except.error "KeyError: win" ∧
    ∀ out : List Summary × List String,
      collect_period_summaries netEmpty 7 none ["1", "2"] ≠ Except.ok out := by
  have h : collect_period_summaries netEmpty 7 none ["1", "2"] =
      Except.error "KeyError: win" := by decide
  refine ⟨h, ?_⟩
  intro out hout
  rw [h] at hout
  exact Except.noConfusion hout

end Dota2
